import Mathlib

/-!
Shallow embedding of the retail-flow backend (server.cjs) core operations:
sequential entry-code generation, inventory deduction, purchase-order
creation/deletion, invoice saving, and the product discount flag.
Tables are embedded as Lean lists of row structures; SQL statements become
pure functions on a database state.
-/

namespace RetailFlow

/-- Helper for the decimal rendering: structural recursion on a fuel bound
(any fuel exceeding the number yields the same digits). -/
def jsStringAux : Nat → Nat → List Char
  | 0, _ => []
  | fuel + 1, n =>
    if n < 10 then [Nat.digitChar n]
    else jsStringAux fuel (n / 10) ++ [Nat.digitChar (n % 10)]

/-- Decimal rendering of a natural number, most-significant digit first:
the embedding of the JS expression String(newValue) for a non-negative
integer value. -/
def jsString (n : Nat) : List Char :=
  jsStringAux (n + 1) n

/-- String form of the decimal rendering. -/
def jsNat (n : Nat) : String :=
  String.mk (jsString n)

/-- Embedding of JS String.prototype.padStart with a one-character pad:
when the string is at least the target length it is returned unchanged,
otherwise copies of the pad character are prepended. -/
def padStart (s : String) (targetLen : Nat) (c : Char) : String :=
  String.mk (List.replicate (targetLen - s.length) c) ++ s

theorem jsStringAux_congr : ∀ f₁ : Nat, ∀ f₂ n : Nat, n < f₁ → n < f₂ →
    jsStringAux f₁ n = jsStringAux f₂ n := by
  intro f₁
  induction f₁ with
  | zero => intro f₂ n h₁ h₂; omega
  | succ g ih =>
    intro f₂ n h₁ h₂
    cases f₂ with
    | zero => omega
    | succ h =>
      by_cases h10 : n < 10
      · simp [jsStringAux, h10]
      · have hdiv : n / 10 < n := Nat.div_lt_self (by omega) (by omega)
        simp only [jsStringAux, h10, if_false]
        rw [ih h (n / 10) (by omega) (by omega)]

theorem jsString_of_lt (n : Nat) (h : n < 10) : jsString n = [Nat.digitChar n] := by
  simp [jsString, jsStringAux, h]

theorem jsString_of_ge (n : Nat) (h : ¬ n < 10) :
    jsString n = jsString (n / 10) ++ [Nat.digitChar (n % 10)] := by
  have hdiv : n / 10 < n := Nat.div_lt_self (by omega) (by omega)
  show jsStringAux (n + 1) n = jsStringAux (n / 10 + 1) (n / 10) ++ [Nat.digitChar (n % 10)]
  rw [show jsStringAux (n + 1) n =
      (if n < 10 then [Nat.digitChar n]
       else jsStringAux n (n / 10) ++ [Nat.digitChar (n % 10)]) from rfl]
  rw [if_neg h, jsStringAux_congr n (n / 10 + 1) (n / 10) (by omega) (by omega)]

theorem jsString_ne_nil (n : Nat) : jsString n ≠ [] := by
  by_cases h : n < 10
  · rw [jsString_of_lt n h]; simp
  · rw [jsString_of_ge n h]; simp

theorem digitChar_toNat (d : Nat) (h : d < 10) : (Nat.digitChar d).toNat = 48 + d := by
  interval_cases d <;> rfl

theorem digitChar_ne_zero_char (d : Nat) (h0 : 0 < d) (h : d < 10) :
    Nat.digitChar d ≠ '0' := by
  interval_cases d <;> decide

/-- The leading digit of the decimal rendering of a positive number is not
the character '0'. -/
theorem jsString_head_ne_zero (n : Nat) (hn : 0 < n) (c : Char) (cs : List Char)
    (h : jsString n = c :: cs) : c ≠ '0' := by
  induction n using Nat.strong_induction_on generalizing c cs with
  | _ n ih =>
    by_cases h10 : n < 10
    · rw [jsString_of_lt n h10] at h
      cases h
      exact digitChar_ne_zero_char n hn h10
    · rw [jsString_of_ge n h10] at h
      rcases hq : jsString (n / 10) with _ | ⟨d, ds⟩
      · exact absurd hq (jsString_ne_nil _)
      · rw [hq] at h
        simp only [List.cons_append, List.cons.injEq] at h
        rw [← h.1]
        exact ih (n / 10) (Nat.div_lt_self (by omega) (by omega))
          (by omega) d ds hq

/-- Folding decimal digits back into a number, starting from an
accumulator: the left inverse used to prove the rendering injective. -/
def parseFrom (a : Nat) (l : List Char) : Nat :=
  l.foldl (fun acc c => 10 * acc + (c.toNat - 48)) a

theorem parseFrom_jsString (n : Nat) : ∀ a : Nat,
    parseFrom a (jsString n) = a * 10 ^ (jsString n).length + n := by
  induction n using Nat.strong_induction_on with
  | _ n ih =>
    intro a
    by_cases h10 : n < 10
    · rw [jsString_of_lt n h10]
      simp only [parseFrom, List.foldl_cons, List.foldl_nil, List.length_cons,
        List.length_nil]
      rw [digitChar_toNat n h10]
      ring_nf
      omega
    · rw [jsString_of_ge n h10]
      simp only [parseFrom, List.foldl_append, List.foldl_cons, List.foldl_nil,
        List.length_append, List.length_cons, List.length_nil]
      have hrec := ih (n / 10) (Nat.div_lt_self (by omega) (by omega)) a
      simp only [parseFrom] at hrec
      rw [hrec, digitChar_toNat (n % 10) (Nat.mod_lt n (by omega))]
      have hmod : 48 + n % 10 - 48 = n % 10 := by omega
      rw [hmod]
      have hpow : 10 ^ ((jsString (n / 10)).length + (0 + 1)) =
          10 ^ (jsString (n / 10)).length * 10 := by
        rw [Nat.zero_add, pow_succ]
      rw [hpow]
      have halg : 10 * (a * 10 ^ (jsString (n / 10)).length + n / 10) + n % 10 =
          a * (10 ^ (jsString (n / 10)).length * 10) + (10 * (n / 10) + n % 10) := by
        ring
      rw [halg, Nat.div_add_mod]

theorem jsString_injective (m n : Nat) (h : jsString m = jsString n) : m = n := by
  have hm := parseFrom_jsString m 0
  have hn := parseFrom_jsString n 0
  rw [h] at hm
  simp only [Nat.zero_mul, Nat.zero_add] at hm hn
  omega

theorem dropWhile_zero_replicate_append (k : Nat) (l : List Char) :
    List.dropWhile (fun c => c == '0') (List.replicate k '0' ++ l) =
    List.dropWhile (fun c => c == '0') l := by
  induction k with
  | zero => simp
  | succ k ihk =>
    rw [List.replicate_succ, List.cons_append, List.dropWhile_cons]
    simp [ihk]

theorem dropWhile_zero_jsString (n : Nat) (hn : 0 < n) :
    List.dropWhile (fun c => c == '0') (jsString n) = jsString n := by
  rcases hq : jsString n with _ | ⟨c, cs⟩
  · exact absurd hq (jsString_ne_nil _)
  · rw [List.dropWhile_cons]
    have hc : c ≠ '0' := jsString_head_ne_zero n hn c cs hq
    simp [hc]

/-- Zero-padding two positive numbers to the same minimum width yields equal
strings only when the numbers are equal. -/
theorem padStart_jsNat_injective (L m n : Nat) (hm : 0 < m) (hn : 0 < n)
    (h : padStart (jsNat m) L '0' = padStart (jsNat n) L '0') : m = n := by
  have hdata : (List.replicate (L - (jsNat m).length) '0' ++ (jsNat m).data) =
      (List.replicate (L - (jsNat n).length) '0' ++ (jsNat n).data) := by
    have := congrArg String.data h
    simpa [padStart, String.data_append] using this
  have hdrop := congrArg (List.dropWhile (fun c => c == '0')) hdata
  rw [dropWhile_zero_replicate_append, dropWhile_zero_replicate_append] at hdrop
  simp only [jsNat] at hdrop
  rw [dropWhile_zero_jsString m hm, dropWhile_zero_jsString n hn] at hdrop
  exact jsString_injective m n hdrop

theorem padStart_of_le (s : String) (n : Nat) (c : Char) (h : n ≤ s.length) :
    padStart s n c = s := by
  apply String.ext
  simp [padStart, String.data_append, Nat.sub_eq_zero_of_le h]

theorem padStart_length (s : String) (n : Nat) (c : Char) :
    (padStart s n c).length = (n - s.length) + s.length := by
  simp [padStart, String.length_append]

/-- One row of the codeformats table: columns Code, PreFix, length,
nextValue (the pfx field embeds the PreFix column, len the length
column). -/
structure CodeFormatRow where
  code : Nat
  pfx : String
  len : Nat
  nextValue : Nat
deriving DecidableEq, Repr

/-- One row of the products table. -/
structure ProductRow where
  sku : String
  productName : String
  category : String
  intQty : Int
  cost : Int
  price : Int
  image : Option String
  maxDiscount : Int
  dicountAllowed : Nat
deriving DecidableEq, Repr

/-- One row of the purchaseorder table. -/
structure PORow where
  purchaseOrderCode : String
  supplierCode : String
  supplierName : String
  totalCost : Int
  postDate : String
  docDate : String
deriving DecidableEq, Repr

/-- One row of the purchaseorderdetails table. -/
structure PODetailRow where
  poCode : String
  productCode : String
  productName : String
  qty : Int
  cost : Int
deriving DecidableEq, Repr

/-- One row of the sales_invoices table. -/
structure InvoiceRow where
  code : String
  customerId : String
  postDate : String
  dueDate : String
  paymentMethod : String
  totalAmount : Int
  discountAmount : Int
  netTotal : Int
deriving DecidableEq, Repr

/-- One row of the cart_items table. -/
structure CartItemRow where
  invoiceCode : String
  sku : String
  name : String
  quantity : Int
  price : Int
  discount : Int
deriving DecidableEq, Repr

/-- The database state: the tables touched by the specified core, plus the
auto-increment counter of the purchaseorder table (its insertId). -/
structure DB where
  codeformats : List CodeFormatRow
  products : List ProductRow
  purchaseorder : List PORow
  purchaseorderdetails : List PODetailRow
  sales_invoices : List InvoiceRow
  cart_items : List CartItemRow
  poAutoInc : Nat
deriving DecidableEq, Repr

/-- Failure of generateEntryCode: no codeformats row exists for the
requested code type, so reading rows[0].nextValue fails.  Per the spec
error taxonomy (referenced row absent) this is the NotFoundError case. -/
inductive GenError where
  | notFoundError
deriving DecidableEq, Repr

/-- Embedding of the SELECT on codeformats WHERE Code = codeType followed
by reading rows[0]: the first matching row, if any. -/
def findCodeFormat (cfs : List CodeFormatRow) (codeType : Nat) : Option CodeFormatRow :=
  cfs.find? (fun r => r.code == codeType)

/-- Embedding of the UPDATE codeformats SET nextValue = v WHERE Code =
codeType: every matching row gets the new counter value. -/
def setNextValue (cfs : List CodeFormatRow) (codeType : Nat) (v : Nat) : List CodeFormatRow :=
  cfs.map (fun r => if r.code == codeType then { r with nextValue := v } else r)

/-- Embedding of generateEntryCode (server.cjs lines 856-874): read the
codeformats row for the code type, increment its counter, persist it, and
return the prefixed zero-padded code string. -/
def generateEntryCode (db : DB) (codeType : Nat) : Except GenError (String × DB) :=
  match findCodeFormat db.codeformats codeType with
  | none => .error .notFoundError
  | some row =>
    let newValue := row.nextValue + 1
    let cfs := setNextValue db.codeformats codeType newValue
    let codeSample := row.pfx ++ padStart (jsNat newValue) row.len '0'
    .ok (codeSample, { db with codeformats := cfs })

theorem findCodeFormat_setNextValue (cfs : List CodeFormatRow) (t : Nat)
    (row : CodeFormatRow) (v : Nat) (h : findCodeFormat cfs t = some row) :
    findCodeFormat (setNextValue cfs t v) t = some { row with nextValue := v } := by
  induction cfs with
  | nil => simp [findCodeFormat] at h
  | cons a l ihl =>
    cases ha : a.code == t with
    | true =>
      simp only [findCodeFormat, List.find?_cons, ha, Option.some.injEq] at h
      subst h
      rw [setNextValue, List.map_cons, if_pos ha]
      show (match a.code == t with
        | true => some { a with nextValue := v }
        | false => (l.map fun r => if r.code == t then { r with nextValue := v } else r).find?
            (fun r => r.code == t)) = some { a with nextValue := v }
      rw [ha]
    | false =>
      simp only [findCodeFormat, List.find?_cons, ha] at h
      rw [setNextValue, List.map_cons, if_neg (by simp [ha])]
      show (match a.code == t with
        | true => some a
        | false => (l.map fun r => if r.code == t then { r with nextValue := v } else r).find?
            (fun r => r.code == t)) = some { row with nextValue := v }
      rw [ha]
      exact ihl h

/-- Sample database for the closed witness theorems: a codeformats table
with one row per code type used by the handlers, and empty data tables. -/
def dbW : DB where
  codeformats :=
    [⟨1, "PRD", 3, 41⟩, ⟨2, "PO", 4, 0⟩, ⟨5, "CUS", 3, 7⟩, ⟨6, "INV", 5, 2⟩]
  products := []
  purchaseorder := []
  purchaseorderdetails := []
  sales_invoices := []
  cart_items := []
  poAutoInc := 1

theorem generateEntryCode_eq (db : DB) (t : Nat) (row : CodeFormatRow)
    (h : findCodeFormat db.codeformats t = some row) :
    generateEntryCode db t =
      .ok (row.pfx ++ padStart (jsNat (row.nextValue + 1)) row.len '0',
           { db with codeformats := setNextValue db.codeformats t (row.nextValue + 1) }) := by
  rw [generateEntryCode, h]

/-- C1: generate(codeType) reads the CodeFormat row, computes newValue =
nextValue + 1, persists newValue back to the row, and returns the prefix
followed by newValue zero-padded to padLength; when newValue has more
digits than padLength the padding is a no-op, so the returned code
silently widens beyond the fixed width instead of truncating or
erroring. -/
theorem generateEntryCode_spec (db : DB) (t : Nat) (row : CodeFormatRow)
    (h : findCodeFormat db.codeformats t = some row) :
    generateEntryCode db t =
      .ok (row.pfx ++ padStart (jsNat (row.nextValue + 1)) row.len '0',
           { db with codeformats := setNextValue db.codeformats t (row.nextValue + 1) })
    ∧ findCodeFormat (setNextValue db.codeformats t (row.nextValue + 1)) t =
        some { row with nextValue := row.nextValue + 1 }
    ∧ (row.len < (jsNat (row.nextValue + 1)).length →
        row.pfx ++ padStart (jsNat (row.nextValue + 1)) row.len '0' =
          row.pfx ++ jsNat (row.nextValue + 1)
        ∧ row.pfx.length + row.len <
            (row.pfx ++ padStart (jsNat (row.nextValue + 1)) row.len '0').length) := by
  refine ⟨?_, ?_, ?_⟩
  · rw [generateEntryCode, h]
  · exact findCodeFormat_setNextValue db.codeformats t row (row.nextValue + 1) h
  · intro hlen
    constructor
    · rw [padStart_of_le _ _ _ (Nat.le_of_lt hlen)]
    · rw [String.length_append, padStart_length]
      omega

theorem generateEntryCode_spec_witness :
    generateEntryCode dbW 1 =
      .ok ("PRD" ++ padStart (jsNat 42) 3 '0',
           { dbW with codeformats := setNextValue dbW.codeformats 1 42 })
    ∧ "PRD" ++ padStart (jsNat 42) 3 '0' = "PRD042" :=
  ⟨(generateEntryCode_spec dbW 1 ⟨1, "PRD", 3, 41⟩ (by decide)).1, by decide⟩

/-- C3: when no CodeFormat row exists for the code type,
generateEntryCode fails with the not-found error (in the source, reading
rows[0].nextValue from an empty result set throws, the NotFoundError case
of the spec's taxonomy); when a row exists it returns a string code. -/
theorem generateEntryCode_notFound_or_ok (db : DB) (t : Nat) :
    (findCodeFormat db.codeformats t = none →
      generateEntryCode db t = .error .notFoundError)
    ∧ (∀ row : CodeFormatRow, findCodeFormat db.codeformats t = some row →
        ∃ s : String, ∃ db' : DB, generateEntryCode db t = .ok (s, db')) := by
  constructor
  · intro h
    rw [generateEntryCode, h]
  · intro row h
    rw [generateEntryCode, h]
    exact ⟨_, _, rfl⟩

theorem generateEntryCode_notFound_or_ok_witness :
    generateEntryCode dbW 3 = .error .notFoundError
    ∧ ∃ s : String, ∃ db' : DB, generateEntryCode dbW 6 = .ok (s, db') :=
  ⟨(generateEntryCode_notFound_or_ok dbW 3).1 (by decide),
   (generateEntryCode_notFound_or_ok dbW 6).2 ⟨6, "INV", 5, 2⟩ (by decide)⟩

/-- Sequential iteration of the code generator: n calls in order, each
starting from the database state the previous call left behind, collecting
the returned codes. -/
def genIter (t : Nat) : Nat → DB → Except GenError (List String × DB)
  | 0, db => .ok ([], db)
  | n + 1, db =>
    match generateEntryCode db t with
    | .error e => .error e
    | .ok (c, db') =>
      match genIter t n db' with
      | .error e => .error e
      | .ok (cs, db'') => .ok (c :: cs, db'')

theorem range_map_succ_shift {α : Type} (f : Nat → α) (m : Nat) :
    (List.range (m + 1)).map f = f 0 :: (List.range m).map (fun k => f (k + 1)) := by
  rw [List.range_succ_eq_map, List.map_cons, List.map_map]
  rfl

theorem genIter_spec (t : Nat) : ∀ n : Nat, ∀ db : DB, ∀ row : CodeFormatRow,
    findCodeFormat db.codeformats t = some row →
    ∃ dbn : DB,
      genIter t n db =
        .ok ((List.range n).map
          (fun k => row.pfx ++ padStart (jsNat (row.nextValue + k + 1)) row.len '0'), dbn)
      ∧ findCodeFormat dbn.codeformats t = some { row with nextValue := row.nextValue + n } := by
  intro n
  induction n with
  | zero =>
    intro db row h
    exact ⟨db, by simp [genIter], by simpa using h⟩
  | succ m ih =>
    intro db row h
    have hgen := generateEntryCode_eq db t row h
    have hfind : findCodeFormat (setNextValue db.codeformats t (row.nextValue + 1)) t =
        some { row with nextValue := row.nextValue + 1 } :=
      findCodeFormat_setNextValue db.codeformats t row (row.nextValue + 1) h
    obtain ⟨dbn, hiter, hfinal⟩ :=
      ih { db with codeformats := setNextValue db.codeformats t (row.nextValue + 1) }
        { row with nextValue := row.nextValue + 1 } hfind
    refine ⟨dbn, ?_, ?_⟩
    · dsimp only at hiter
      have htail : (List.range m).map
          (fun k => row.pfx ++ padStart (jsNat (row.nextValue + 1 + k + 1)) row.len '0') =
          (List.range m).map
          (fun k => row.pfx ++ padStart (jsNat (row.nextValue + (k + 1) + 1)) row.len '0') := by
        apply List.map_congr_left
        intro k _
        rw [show row.nextValue + 1 + k + 1 = row.nextValue + (k + 1) + 1 from by omega]
      simp only [genIter, hgen, hiter]
      rw [range_map_succ_shift, htail]
    · simpa [show row.nextValue + 1 + m = row.nextValue + (m + 1) from by omega]
        using hfinal

theorem mkCode_injective (pfx : String) (L m n : Nat) (hm : 0 < m) (hn : 0 < n)
    (h : pfx ++ padStart (jsNat m) L '0' = pfx ++ padStart (jsNat n) L '0') : m = n := by
  have hdata := congrArg String.data h
  simp only [String.data_append] at hdata
  have hpad := List.append_cancel_left hdata
  exact padStart_jsNat_injective L m n hm hn (String.ext hpad)

/-- C2: on a code type whose CodeFormat row exists, each sequential call
increments the stored nextValue by exactly one (so the counter never
decreases), and n sequential calls return the codes for the counter
values nextValue+1, ..., nextValue+n: n pairwise-distinct codes whose
underlying counter values are strictly increasing with step 1, ending
with the stored counter at nextValue+n. -/
theorem genIter_distinct_monotone (t n : Nat) (db : DB) (row : CodeFormatRow)
    (h : findCodeFormat db.codeformats t = some row) :
    (∃ db' : DB,
      generateEntryCode db t =
        .ok (row.pfx ++ padStart (jsNat (row.nextValue + 1)) row.len '0', db')
      ∧ findCodeFormat db'.codeformats t = some { row with nextValue := row.nextValue + 1 })
    ∧ ∃ dbn : DB,
      genIter t n db =
        .ok ((List.range n).map
          (fun k => row.pfx ++ padStart (jsNat (row.nextValue + k + 1)) row.len '0'), dbn)
      ∧ findCodeFormat dbn.codeformats t = some { row with nextValue := row.nextValue + n }
      ∧ ((List.range n).map
          (fun k => row.pfx ++ padStart (jsNat (row.nextValue + k + 1)) row.len '0')).Nodup
      ∧ ∀ i j : Nat, i < j → j < n → row.nextValue + i + 1 < row.nextValue + j + 1 := by
  constructor
  · refine ⟨{ db with codeformats := setNextValue db.codeformats t (row.nextValue + 1) },
      generateEntryCode_eq db t row h, ?_⟩
    exact findCodeFormat_setNextValue db.codeformats t row (row.nextValue + 1) h
  · obtain ⟨dbn, hiter, hfinal⟩ := genIter_spec t n db row h
    refine ⟨dbn, hiter, hfinal, ?_, ?_⟩
    · apply List.Nodup.map_on
      · intro x _ y _ hxy
        have := mkCode_injective row.pfx row.len (row.nextValue + x + 1)
          (row.nextValue + y + 1) (by omega) (by omega) hxy
        omega
      · exact List.nodup_range n
    · intro i j hij _
      omega

theorem genIter_distinct_monotone_witness :
    ((∃ db' : DB,
      generateEntryCode dbW 1 = .ok ("PRD" ++ padStart (jsNat 42) 3 '0', db')
      ∧ findCodeFormat db'.codeformats 1 = some ⟨1, "PRD", 3, 42⟩)
    ∧ ∃ dbn : DB,
      genIter 1 3 dbW =
        .ok ((List.range 3).map (fun k => "PRD" ++ padStart (jsNat (41 + k + 1)) 3 '0'), dbn)
      ∧ findCodeFormat dbn.codeformats 1 = some ⟨1, "PRD", 3, 44⟩
      ∧ ((List.range 3).map (fun k => "PRD" ++ padStart (jsNat (41 + k + 1)) 3 '0')).Nodup
      ∧ ∀ i j : Nat, i < j → j < 3 → 41 + i + 1 < 41 + j + 1)
    ∧ (List.range 3).map (fun k => "PRD" ++ padStart (jsNat (41 + k + 1)) 3 '0') =
        ["PRD042", "PRD043", "PRD044"] :=
  ⟨genIter_distinct_monotone 1 3 dbW ⟨1, "PRD", 3, 41⟩ (by decide), by decide⟩

/-- One entry of the request body of PUT /api/auto-update-inventory:
a sku together with the quantity to deduct. -/
structure InvEntry where
  sku : String
  quantity : Int
deriving DecidableEq, Repr

/-- Response of the inventory handler: HTTP 200, 400 or 404 with the
message the source builds. -/
inductive InvResponse where
  | ok (msg : String)
  | badRequest (msg : String)
  | notFound (msg : String)
deriving DecidableEq, Repr

/-- Number of rows the conditional UPDATE on products matches (WHERE sku =
? AND intQty >= ?): the affectedRows of the statement. -/
def invAffected (products : List ProductRow) (sku : String) (q : Int) : Nat :=
  (products.filter (fun r => r.sku == sku && decide (q ≤ r.intQty))).length

/-- Effect of the conditional UPDATE products SET intQty = intQty - q
WHERE sku = ? AND intQty >= ?: each matching row is decremented, rows
without enough stock (or another sku) are untouched. -/
def invApply (products : List ProductRow) (sku : String) (q : Int) : List ProductRow :=
  products.map (fun r =>
    if r.sku == sku && decide (q ≤ r.intQty) then { r with intQty := r.intQty - q } else r)

/-- Loop body of the auto-update-inventory handler (server.cjs lines
579-604): entries are processed in order against the live table; the
first failing entry returns immediately, leaving the updates of the
earlier entries in place. -/
def autoUpdateInventoryLoop (products : List ProductRow) :
    List InvEntry → InvResponse × List ProductRow
  | [] => (.ok "Products updated successfully.", products)
  | e :: rest =>
    if e.quantity ≤ 0 then
      (.badRequest ("Quantity must be greater than zero for SKU: " ++ e.sku), products)
    else if invAffected products e.sku e.quantity = 0 then
      (.notFound ("Product with SKU " ++ e.sku ++ " not found or insufficient stock."),
       products)
    else
      autoUpdateInventoryLoop (invApply products e.sku e.quantity) rest

/-- Embedding of PUT /api/auto-update-inventory (server.cjs lines
557-612).  The entries arrive typed, so the missing-field validation of
the source never fires; an empty batch is rejected up front with the 400
message the source builds (its string concatenation appends the text
true, the value of Array.isArray). -/
def autoUpdateInventory (products : List ProductRow) (entries : List InvEntry) :
    InvResponse × List ProductRow :=
  if entries.isEmpty then
    (.badRequest ("Request must include an array of products with SKU and quantity." ++ "true"),
     products)
  else
    autoUpdateInventoryLoop products entries

/-- Success-only prefix run: the table reached after a run of entries
that all succeed, if they do. -/
def invRunOk (products : List ProductRow) : List InvEntry → Option (List ProductRow)
  | [] => some products
  | e :: rest =>
    if 0 < e.quantity ∧ invAffected products e.sku e.quantity ≠ 0 then
      invRunOk (invApply products e.sku e.quantity) rest
    else
      none

theorem autoUpdateInventoryLoop_append (pre : List InvEntry) :
    ∀ products p₂ : List ProductRow, ∀ rest : List InvEntry,
    invRunOk products pre = some p₂ →
    autoUpdateInventoryLoop products (pre ++ rest) = autoUpdateInventoryLoop p₂ rest := by
  induction pre with
  | nil =>
    intro products p₂ rest h
    simp only [invRunOk, Option.some.injEq] at h
    rw [h, List.nil_append]
  | cons e pr ih =>
    intro products p₂ rest h
    rw [invRunOk] at h
    by_cases hc : 0 < e.quantity ∧ invAffected products e.sku e.quantity ≠ 0
    · rw [if_pos hc] at h
      rw [List.cons_append, autoUpdateInventoryLoop,
        if_neg (by omega), if_neg (by omega)]
      exact ih (invApply products e.sku e.quantity) p₂ rest h
    · rw [if_neg hc] at h
      cases h

/-- Product row used by the concrete inventory scenarios. -/
def prodW (q : Int) : ProductRow :=
  ⟨"SKU1", "Widget", "general", q, 3, 5, none, 0, 0⟩

/-- C4: a batch entry decrements a product row by the requested amount
exactly when the row has sufficient stock (the single conditional UPDATE,
stated row by row); the batch is rejected at the first entry whose update
affects zero rows with the failing SKU named in the message; and from
stock 10, deducting 4 three times sequentially succeeds twice and fails
on the third call, leaving stock at 2. -/
theorem autoUpdateInventory_conditional_deduct :
    (∀ products : List ProductRow, ∀ sku : String, ∀ q : Int, ∀ i : Nat,
      (invApply products sku q)[i]? = (products[i]?).map (fun r =>
        if r.sku == sku && decide (q ≤ r.intQty)
        then { r with intQty := r.intQty - q } else r))
    ∧ (∀ products : List ProductRow, ∀ e : InvEntry, ∀ rest : List InvEntry,
      0 < e.quantity →
      (invAffected products e.sku e.quantity = 0 →
        autoUpdateInventory products (e :: rest) =
          (.notFound ("Product with SKU " ++ e.sku ++ " not found or insufficient stock."),
           products))
      ∧ (invAffected products e.sku e.quantity ≠ 0 →
        autoUpdateInventory products (e :: rest) =
          autoUpdateInventoryLoop (invApply products e.sku e.quantity) rest))
    ∧ autoUpdateInventory [prodW 10] [⟨"SKU1", 4⟩] =
        (.ok "Products updated successfully.", [prodW 6])
    ∧ autoUpdateInventory [prodW 6] [⟨"SKU1", 4⟩] =
        (.ok "Products updated successfully.", [prodW 2])
    ∧ autoUpdateInventory [prodW 2] [⟨"SKU1", 4⟩] =
        (.notFound "Product with SKU SKU1 not found or insufficient stock.", [prodW 2]) := by
  refine ⟨?_, ?_, by decide, by decide, by decide⟩
  · intro products sku q i
    rw [invApply, List.getElem?_map]
  · intro products e rest hq
    constructor
    · intro haff
      rw [autoUpdateInventory, if_neg (by simp), autoUpdateInventoryLoop,
        if_neg (by omega), if_pos haff]
    · intro haff
      rw [autoUpdateInventory, if_neg (by simp), autoUpdateInventoryLoop,
        if_neg (by omega), if_neg haff]

theorem autoUpdateInventory_conditional_deduct_witness :
    (0 < (2 : Int)
      ∧ invAffected [prodW 1] "SKU1" 2 = 0
      ∧ autoUpdateInventory [prodW 1] [⟨"SKU1", 2⟩] =
          (.notFound "Product with SKU SKU1 not found or insufficient stock.", [prodW 1]))
    ∧ (invApply [prodW 10] "SKU1" 4)[0]? = some (prodW 6) :=
  ⟨⟨by decide, by decide,
    (autoUpdateInventory_conditional_deduct.2.1 [prodW 1] ⟨"SKU1", 2⟩ [] (by decide)).1
      (by decide)⟩,
   by rw [autoUpdateInventory_conditional_deduct.1 [prodW 10] "SKU1" 4 0]; decide⟩

/-- C10: when a deduction batch fails at some entry, after a prefix of
entries that all succeeded, the handler returns with the table still
holding the deductions of that prefix (nothing is restored), and the
error message names the failing entry's SKU: the 400 message for a
non-positive quantity, the 404 message for an unknown SKU or
insufficient stock. -/
theorem autoUpdateInventory_partial_on_failure
    (products p₂ : List ProductRow) (pre rest : List InvEntry) (e : InvEntry)
    (hpre : invRunOk products pre = some p₂) :
    (e.quantity ≤ 0 →
      autoUpdateInventory products (pre ++ e :: rest) =
        (.badRequest ("Quantity must be greater than zero for SKU: " ++ e.sku), p₂))
    ∧ (0 < e.quantity → invAffected p₂ e.sku e.quantity = 0 →
      autoUpdateInventory products (pre ++ e :: rest) =
        (.notFound ("Product with SKU " ++ e.sku ++ " not found or insufficient stock."),
         p₂)) := by
  have hrun := autoUpdateInventoryLoop_append pre products p₂ (e :: rest) hpre
  have hne : (pre ++ e :: rest).isEmpty = false := by
    cases pre <;> simp [List.isEmpty]
  constructor
  · intro hq
    rw [autoUpdateInventory, if_neg (by simp [hne]), hrun, autoUpdateInventoryLoop,
      if_pos hq]
  · intro hq haff
    rw [autoUpdateInventory, if_neg (by simp [hne]), hrun, autoUpdateInventoryLoop,
      if_neg (by omega), if_pos haff]

/-- Second product row for the concrete partial-failure scenario. -/
def prodW2 (q : Int) : ProductRow :=
  ⟨"SKU2", "Gadget", "general", q, 4, 7, none, 0, 0⟩

theorem autoUpdateInventory_partial_on_failure_witness :
    autoUpdateInventory [prodW 10, prodW2 5] [⟨"SKU1", 4⟩, ⟨"SKU2", 9⟩] =
      (.notFound "Product with SKU SKU2 not found or insufficient stock.",
       [prodW 6, prodW2 5]) :=
  (autoUpdateInventory_partial_on_failure [prodW 10, prodW2 5] [prodW 6, prodW2 5]
    [⟨"SKU1", 4⟩] [] ⟨"SKU2", 9⟩ (by decide)).2 (by decide) (by decide)

/-- Supplier reference sent with a create-purchase-order request. -/
structure Supplier where
  code : String
  name : String
deriving DecidableEq, Repr

/-- One entry of orderDetails in a create-purchase-order request. -/
structure OrderDetail where
  sku : String
  productName : String
  quantity : Int
  cost : Int
deriving DecidableEq, Repr

/-- Success body of POST /api/create-purchase-order: the source sends
exactly a message and the insertId of the purchaseorder row (these are
its only fields). -/
structure POResponse where
  message : String
  purchaseOrderId : Nat
deriving DecidableEq, Repr

/-- Embedding of the date formatting in the handler: year dash
two-digit-padded month dash two-digit-padded day (the source reads the
current date from the clock; here it is a parameter). -/
def fmtDate (year month day : Nat) : String :=
  jsNat year ++ "-" ++ padStart (jsNat month) 2 '0' ++ "-" ++ padStart (jsNat day) 2 '0'

/-- Embedding of the INSERT INTO purchaseorder statement: appends the
parent row and returns its insertId. -/
def insertPurchaseOrder (db : DB) (code : String) (s : Supplier) (totalCost : Int)
    (qdate : String) : Nat × DB :=
  (db.poAutoInc,
   { db with
      purchaseorder := db.purchaseorder ++ [⟨code, s.code, s.name, totalCost, qdate, qdate⟩],
      poAutoInc := db.poAutoInc + 1 })

/-- Embedding of the batch INSERT INTO purchaseorderdetails statement:
appends one child row per order detail, all keyed by the order code. -/
def insertPODetails (db : DB) (code : String) (items : List OrderDetail) : DB :=
  { db with
      purchaseorderdetails := db.purchaseorderdetails ++
        items.map (fun i => ⟨code, i.sku, i.productName, i.quantity, i.cost⟩) }

/-- Embedding of POST /api/create-purchase-order (server.cjs lines
877-933): generate a code of type 2, format today's date, insert the
parent row, then insert the child rows only when orderDetails is
non-empty; respond with a fixed message and the parent row's insertId. -/
def createPurchaseOrder (db : DB) (supplier : Supplier) (orderDetails : List OrderDetail)
    (totalCost : Int) (year month day : Nat) : Except GenError (POResponse × DB) :=
  match generateEntryCode db 2 with
  | .error e => .error e
  | .ok (entryCode, db₁) =>
    let qdate := fmtDate year month day
    let (newId, db₂) := insertPurchaseOrder db₁ entryCode supplier totalCost qdate
    let db₃ := if 0 < orderDetails.length then insertPODetails db₂ entryCode orderDetails
               else db₂
    .ok (⟨"Purchase order added successfully", newId⟩, db₃)

/-- C5 (amended): createPurchaseOrder generates a code of the
purchase-order type, uses the current date as both post-date and
doc-date of the parent row, inserts the parent row first (at that
intermediate state the details table is untouched), inserts one child
row per order detail in a single batch keyed by the generated code
exactly when the list is non-empty, and responds with a fixed message
and the new row identifier; the order code itself is not part of the
response. -/
theorem createPurchaseOrder_spec (db : DB) (supplier : Supplier)
    (items : List OrderDetail) (totalCost : Int) (y mo d : Nat) (row : CodeFormatRow)
    (h : findCodeFormat db.codeformats 2 = some row) :
    ∃ code : String, ∃ dbg : DB,
      generateEntryCode db 2 = .ok (code, dbg)
      ∧ createPurchaseOrder db supplier items totalCost y mo d =
          .ok (⟨"Purchase order added successfully", dbg.poAutoInc⟩,
            if 0 < items.length
            then insertPODetails
              (insertPurchaseOrder dbg code supplier totalCost (fmtDate y mo d)).2 code items
            else (insertPurchaseOrder dbg code supplier totalCost (fmtDate y mo d)).2)
      ∧ (insertPurchaseOrder dbg code supplier totalCost (fmtDate y mo d)).2.purchaseorderdetails
          = db.purchaseorderdetails
      ∧ (insertPurchaseOrder dbg code supplier totalCost (fmtDate y mo d)).2.purchaseorder
          = db.purchaseorder ++
            [⟨code, supplier.code, supplier.name, totalCost, fmtDate y mo d, fmtDate y mo d⟩]
      ∧ (insertPODetails
            (insertPurchaseOrder dbg code supplier totalCost (fmtDate y mo d)).2 code
            items).purchaseorderdetails
          = db.purchaseorderdetails ++
            items.map (fun i => ⟨code, i.sku, i.productName, i.quantity, i.cost⟩) := by
  refine ⟨row.pfx ++ padStart (jsNat (row.nextValue + 1)) row.len '0',
    { db with codeformats := setNextValue db.codeformats 2 (row.nextValue + 1) },
    generateEntryCode_eq db 2 row h, ?_, ?_, ?_, ?_⟩
  · rw [createPurchaseOrder, generateEntryCode_eq db 2 row h]
    rfl
  · simp [insertPurchaseOrder]
  · simp [insertPurchaseOrder]
  · simp [insertPurchaseOrder, insertPODetails]

theorem createPurchaseOrder_spec_witness :
    ∃ code : String, ∃ dbg : DB,
      generateEntryCode dbW 2 = .ok (code, dbg)
      ∧ createPurchaseOrder dbW ⟨"SUP001", "Acme"⟩ [⟨"SKU1", "Widget", 2, 3⟩] 6 2026 10 11 =
          .ok (⟨"Purchase order added successfully", dbg.poAutoInc⟩,
            if 0 < [(⟨"SKU1", "Widget", 2, 3⟩ : OrderDetail)].length
            then insertPODetails
              (insertPurchaseOrder dbg code ⟨"SUP001", "Acme"⟩ 6 (fmtDate 2026 10 11)).2 code
              [⟨"SKU1", "Widget", 2, 3⟩]
            else (insertPurchaseOrder dbg code ⟨"SUP001", "Acme"⟩ 6 (fmtDate 2026 10 11)).2)
      ∧ (insertPurchaseOrder dbg code ⟨"SUP001", "Acme"⟩ 6
            (fmtDate 2026 10 11)).2.purchaseorderdetails = dbW.purchaseorderdetails
      ∧ (insertPurchaseOrder dbg code ⟨"SUP001", "Acme"⟩ 6 (fmtDate 2026 10 11)).2.purchaseorder
          = dbW.purchaseorder ++
            [⟨code, "SUP001", "Acme", 6, fmtDate 2026 10 11, fmtDate 2026 10 11⟩]
      ∧ (insertPODetails
            (insertPurchaseOrder dbg code ⟨"SUP001", "Acme"⟩ 6 (fmtDate 2026 10 11)).2 code
            [⟨"SKU1", "Widget", 2, 3⟩]).purchaseorderdetails
          = dbW.purchaseorderdetails ++
            [(⟨"SKU1", "Widget", 2, 3⟩ : OrderDetail)].map
              (fun i => ⟨code, i.sku, i.productName, i.quantity, i.cost⟩) :=
  createPurchaseOrder_spec dbW ⟨"SUP001", "Acme"⟩ [⟨"SKU1", "Widget", 2, 3⟩] 6 2026 10 11
    ⟨2, "PO", 4, 0⟩ (by decide)

/-- C5 counterexample: on a concrete request the handler's success
response holds exactly the fixed message and the numeric row identifier
1, while the generated order code (which keys the inserted child row) is
"PO0001"; neither response field equals that code, refuting the claim
that the handler returns the order code. -/
theorem createPurchaseOrder_no_code_in_response :
    (createPurchaseOrder dbW ⟨"SUP001", "Acme"⟩ [⟨"SKU1", "Widget", 2, 3⟩] 6 2026 10 11).toOption.map
        Prod.fst = some ⟨"Purchase order added successfully", 1⟩
    ∧ (createPurchaseOrder dbW ⟨"SUP001", "Acme"⟩ [⟨"SKU1", "Widget", 2, 3⟩] 6 2026 10 11).toOption.map
        (fun p => p.2.purchaseorderdetails) = some [⟨"PO0001", "SKU1", "Widget", 2, 3⟩]
    ∧ "Purchase order added successfully" ≠ "PO0001"
    ∧ jsNat 1 ≠ "PO0001" := by
  decide

/-- Response of POST /api/delete-purchase-order. -/
inductive DelResponse where
  | ok (msg : String)
  | badRequest (msg : String)
deriving DecidableEq, Repr

/-- Embedding of the DELETE FROM purchaseorderdetails statement. -/
def deletePODetails (db : DB) (poCode : String) : DB :=
  { db with purchaseorderdetails :=
      db.purchaseorderdetails.filter (fun r => !(r.poCode == poCode)) }

/-- Embedding of the DELETE FROM purchaseorder statement. -/
def deletePORow (db : DB) (poCode : String) : DB :=
  { db with purchaseorder :=
      db.purchaseorder.filter (fun r => !(r.purchaseOrderCode == poCode)) }

/-- Embedding of POST /api/delete-purchase-order (server.cjs lines
691-715): a missing (falsy, here empty) poCode is rejected; otherwise
the detail rows are deleted first, then the order row. -/
def deletePurchaseOrder (db : DB) (poCode : String) : DelResponse × DB :=
  if poCode == "" then
    (.badRequest "Missing purchase order code (poCode)", db)
  else
    (.ok "Purchase order and details deleted successfully.",
     deletePORow (deletePODetails db poCode) poCode)

/-- Embedding of the query in GET /api/get-purchase-orders-details: the
detail rows whose poCode matches. -/
def getPurchaseOrderDetails (db : DB) (poCode : String) : List PODetailRow :=
  db.purchaseorderdetails.filter (fun r => r.poCode == poCode)

/-- C8: deletePurchaseOrder removes the detail rows for the code before
removing the order row (the composition applies deletePODetails first,
and that intermediate state still holds the order rows untouched), and
afterwards querying the line items of that code returns the empty list,
with no row for the code left in either table. -/
theorem deletePurchaseOrder_clears_details (db : DB) (poCode : String)
    (h : poCode ≠ "") :
    deletePurchaseOrder db poCode =
      (.ok "Purchase order and details deleted successfully.",
       deletePORow (deletePODetails db poCode) poCode)
    ∧ (deletePODetails db poCode).purchaseorder = db.purchaseorder
    ∧ getPurchaseOrderDetails (deletePORow (deletePODetails db poCode) poCode) poCode = []
    ∧ ((deletePORow (deletePODetails db poCode) poCode).purchaseorder.filter
        (fun r => r.purchaseOrderCode == poCode)) = [] := by
  refine ⟨?_, rfl, ?_, ?_⟩
  · rw [deletePurchaseOrder, if_neg (by simpa using h)]
  · rw [getPurchaseOrderDetails]
    simp only [deletePORow, deletePODetails, List.filter_filter]
    apply List.filter_eq_nil_iff.mpr
    intro r _
    cases hr : r.poCode == poCode <;> simp [hr]
  · simp only [deletePORow, deletePODetails, List.filter_filter]
    apply List.filter_eq_nil_iff.mpr
    intro r _
    cases hr : r.purchaseOrderCode == poCode <;> simp [hr]

theorem deletePurchaseOrder_clears_details_witness :
    deletePurchaseOrder
      { dbW with
          purchaseorder := [⟨"PO0001", "SUP001", "Acme", 6, "2026-10-11", "2026-10-11"⟩],
          purchaseorderdetails := [⟨"PO0001", "SKU1", "Widget", 2, 3⟩] } "PO0001" =
      (.ok "Purchase order and details deleted successfully.",
       deletePORow
        (deletePODetails
          { dbW with
              purchaseorder := [⟨"PO0001", "SUP001", "Acme", 6, "2026-10-11", "2026-10-11"⟩],
              purchaseorderdetails := [⟨"PO0001", "SKU1", "Widget", 2, 3⟩] } "PO0001") "PO0001")
    ∧ getPurchaseOrderDetails
        (deletePORow
          (deletePODetails
            { dbW with
                purchaseorder := [⟨"PO0001", "SUP001", "Acme", 6, "2026-10-11", "2026-10-11"⟩],
                purchaseorderdetails := [⟨"PO0001", "SKU1", "Widget", 2, 3⟩] } "PO0001") "PO0001")
        "PO0001" = [] :=
  ⟨(deletePurchaseOrder_clears_details
      { dbW with
          purchaseorder := [⟨"PO0001", "SUP001", "Acme", 6, "2026-10-11", "2026-10-11"⟩],
          purchaseorderdetails := [⟨"PO0001", "SKU1", "Widget", 2, 3⟩] } "PO0001"
      (by decide)).1,
   (deletePurchaseOrder_clears_details
      { dbW with
          purchaseorder := [⟨"PO0001", "SUP001", "Acme", 6, "2026-10-11", "2026-10-11"⟩],
          purchaseorderdetails := [⟨"PO0001", "SKU1", "Widget", 2, 3⟩] } "PO0001"
      (by decide)).2.2.1⟩

/-- A write buffered inside an open transaction of the shared
connection. -/
inductive Write where
  | invoice (row : InvoiceRow)
  | cartItem (row : CartItemRow)
deriving DecidableEq, Repr

/-- The single shared database connection: the durable database plus the
uncommitted writes of the transaction left open on it, if any. -/
structure Conn where
  db : DB
  pending : List Write
  inTransaction : Bool
deriving DecidableEq, Repr

/-- Applying one buffered write to the durable state. -/
def applyWrite (db : DB) : Write → DB
  | .invoice r => { db with sales_invoices := db.sales_invoices ++ [r] }
  | .cartItem r => { db with cart_items := db.cart_items ++ [r] }

/-- COMMIT: the buffered writes become durable and the transaction
closes. -/
def commitConn (c : Conn) : Conn :=
  ⟨c.pending.foldl applyWrite c.db, [], false⟩

/-- BEGIN/START TRANSACTION: in MySQL this implicitly commits a
transaction already open on the connection, then opens a fresh one. -/
def beginTransaction (c : Conn) : Conn :=
  { commitConn c with inTransaction := true }

/-- State of the connection as the next statement on it observes it: a
transaction reads its own uncommitted writes, and every request handler
shares this one connection. -/
def visibleDB (c : Conn) : DB :=
  c.pending.foldl applyWrite c.db

/-- Customer reference sent with a save-invoice request. -/
structure Customer where
  code : String
deriving DecidableEq, Repr

/-- Invoice header fields of a save-invoice request. -/
structure InvoiceMeta where
  postDate : String
  dueDate : String
  paymentMethod : String
  totalAmount : Int
  discountAmount : Int
  netTotal : Int
deriving DecidableEq, Repr

/-- One entry of cartItems in a save-invoice request; discount is
optional in the request body (item.discount || 0 in the source). -/
structure CartEntry where
  sku : String
  name : String
  quantity : Int
  price : Int
  discount : Option Int
deriving DecidableEq, Repr

/-- Response of POST /api/save-invoice. -/
inductive SaveResult where
  | ok (msg : String) (invoiceCode : String)
  | serverError (msg : String)
deriving DecidableEq, Repr

/-- Cart-item INSERTs that succeed against the storage-failure oracle
itemFails (index i fails with the given error reason): every statement is
issued, so every succeeding one joins the transaction buffer. -/
def cartItemWrites (code : String) (itemFails : CartEntry → Option String)
    (items : List CartEntry) : List Write :=
  (items.filter (fun i => (itemFails i).isNone)).map
    (fun i => .cartItem ⟨code, i.sku, i.name, i.quantity, i.price, i.discount.getD 0⟩)

/-- Error reason of the first failing cart-item INSERT, if any: the
rejection Promise.all reports. -/
def firstFailure (itemFails : CartEntry → Option String) (items : List CartEntry) :
    Option String :=
  items.findSome? itemFails

/-- Embedding of POST /api/save-invoice (server.cjs lines 947-1011):
generate a code of type 6 (before the transaction, in autocommit mode),
begin a transaction, insert the SalesInvoice row, issue one cart-item
INSERT per entry (discount defaulting to 0), and commit when all
succeed.  When a cart-item INSERT fails the handler answers 500 with the
error reason appended, and performs neither rollback nor commit — the
rollback call in the source is commented out — so the transaction stays
open with its buffered writes on the shared connection. -/
def saveInvoice (c : Conn) (itemFails : CartEntry → Option String) (customer : Customer)
    (invoice : InvoiceMeta) (cartItems : List CartEntry) :
    Except GenError (SaveResult × Conn) :=
  match generateEntryCode c.db 6 with
  | .error e => .error e
  | .ok (entryCode, dbg) =>
    let c₁ := beginTransaction { c with db := dbg }
    let invRow : InvoiceRow := ⟨entryCode, customer.code, invoice.postDate,
      invoice.dueDate, invoice.paymentMethod, invoice.totalAmount,
      invoice.discountAmount, invoice.netTotal⟩
    let c₂ : Conn := { c₁ with pending := c₁.pending ++ [.invoice invRow] }
    let c₃ : Conn := { c₂ with
      pending := c₂.pending ++ cartItemWrites entryCode itemFails cartItems }
    match firstFailure itemFails cartItems with
    | some reason =>
      .ok (.serverError ("Failed to save invoice. " ++ reason), c₃)
    | none =>
      .ok (.ok "Invoice saved successfully!" entryCode, commitConn c₃)

theorem findSome?_const_none {α β : Type} (l : List α) :
    l.findSome? (fun _ => (none : Option β)) = none := by
  induction l with
  | nil => rfl
  | cons a t ih => simp [List.findSome?_cons, ih]

theorem cartItemWrites_all_ok (code : String) (items : List CartEntry) :
    cartItemWrites code (fun _ => none) items =
      items.map (fun i =>
        Write.cartItem ⟨code, i.sku, i.name, i.quantity, i.price, i.discount.getD 0⟩) := by
  rw [cartItemWrites]
  have hf : items.filter (fun i => ((fun _ => (none : Option String)) i).isNone) = items := by
    induction items with
    | nil => rfl
    | cons a t ih => simp [List.filter_cons, ih]
  rw [hf]

theorem foldl_applyWrite_cartItem {γ : Type} (g : γ → CartItemRow) (l : List γ) :
    ∀ db : DB, (l.map (fun i => Write.cartItem (g i))).foldl applyWrite db =
      { db with cart_items := db.cart_items ++ l.map g } := by
  induction l with
  | nil => intro db; simp
  | cons a t ih =>
    intro db
    simp only [List.map_cons, List.foldl_cons, applyWrite, ih, List.map_cons]
    simp [List.append_assoc]

/-- C7: on the success path (all cart-item inserts succeed), saveInvoice
generates a code of the invoice type, inserts exactly one SalesInvoice
row, inserts exactly one CartItem row per cart entry keyed by that code
with discount defaulting to 0, leaves no open transaction, and the
success response carries the generated invoice code. -/
theorem saveInvoice_spec (c : Conn) (customer : Customer) (invoice : InvoiceMeta)
    (cartItems : List CartEntry) (row : CodeFormatRow)
    (h : findCodeFormat c.db.codeformats 6 = some row) (hp : c.pending = []) :
    ∃ c' : Conn,
      saveInvoice c (fun _ => none) customer invoice cartItems =
        .ok (.ok "Invoice saved successfully!"
          (row.pfx ++ padStart (jsNat (row.nextValue + 1)) row.len '0'), c')
      ∧ c'.db.sales_invoices = c.db.sales_invoices ++
          [⟨row.pfx ++ padStart (jsNat (row.nextValue + 1)) row.len '0', customer.code,
            invoice.postDate, invoice.dueDate, invoice.paymentMethod, invoice.totalAmount,
            invoice.discountAmount, invoice.netTotal⟩]
      ∧ c'.db.cart_items = c.db.cart_items ++ cartItems.map (fun i =>
          ⟨row.pfx ++ padStart (jsNat (row.nextValue + 1)) row.len '0',
           i.sku, i.name, i.quantity, i.price, i.discount.getD 0⟩)
      ∧ c'.db.cart_items.length = c.db.cart_items.length + cartItems.length
      ∧ c'.pending = [] := by
  have hgen := generateEntryCode_eq c.db 6 row h
  refine ⟨⟨{ c.db with
      codeformats := setNextValue c.db.codeformats 6 (row.nextValue + 1),
      sales_invoices := c.db.sales_invoices ++
        [⟨row.pfx ++ padStart (jsNat (row.nextValue + 1)) row.len '0', customer.code,
          invoice.postDate, invoice.dueDate, invoice.paymentMethod, invoice.totalAmount,
          invoice.discountAmount, invoice.netTotal⟩],
      cart_items := c.db.cart_items ++ cartItems.map (fun i =>
        ⟨row.pfx ++ padStart (jsNat (row.nextValue + 1)) row.len '0',
         i.sku, i.name, i.quantity, i.price, i.discount.getD 0⟩) },
    [], false⟩, ?_, by simp, by simp, by simp, rfl⟩
  rw [saveInvoice, hgen]
  simp only [beginTransaction, commitConn, hp, List.foldl_nil, List.nil_append,
    firstFailure, findSome?_const_none, cartItemWrites_all_ok, List.singleton_append,
    List.foldl_cons, applyWrite, foldl_applyWrite_cartItem]

/-- Fresh connection over the sample database: no open transaction. -/
def cW : Conn := ⟨dbW, [], false⟩

/-- Cart items of the concrete invoice scenarios (one without a
discount). -/
def cartW : List CartEntry :=
  [⟨"SKU1", "Widget", 2, 5, some 1⟩, ⟨"SKU2", "Gadget", 1, 7, none⟩,
   ⟨"SKU3", "Doohickey", 3, 4, some 0⟩]

theorem saveInvoice_spec_witness :
    (∃ c' : Conn,
      saveInvoice cW (fun _ => none) ⟨"CUS001"⟩
          ⟨"2026-10-11", "2026-11-10", "cash", 100, 5, 95⟩ cartW =
        .ok (.ok "Invoice saved successfully!" ("INV" ++ padStart (jsNat 3) 5 '0'), c')
      ∧ c'.db.sales_invoices = dbW.sales_invoices ++
          [⟨"INV" ++ padStart (jsNat 3) 5 '0', "CUS001", "2026-10-11", "2026-11-10",
            "cash", 100, 5, 95⟩]
      ∧ c'.db.cart_items = dbW.cart_items ++ cartW.map (fun i =>
          ⟨"INV" ++ padStart (jsNat 3) 5 '0', i.sku, i.name, i.quantity, i.price,
           i.discount.getD 0⟩)
      ∧ c'.db.cart_items.length = dbW.cart_items.length + cartW.length
      ∧ c'.pending = [])
    ∧ "INV" ++ padStart (jsNat 3) 5 '0' = "INV00003"
    ∧ cartW.length = 3 :=
  ⟨saveInvoice_spec cW ⟨"CUS001"⟩ ⟨"2026-10-11", "2026-11-10", "cash", 100, 5, 95⟩
      cartW ⟨6, "INV", 5, 2⟩ (by decide) rfl,
   by decide, by decide⟩

/-- Storage-failure oracle of the concrete failing scenario: the INSERT
of the cart item with sku SKU2 fails with reason duplicate key. -/
def failW : CartEntry → Option String :=
  fun i => if i.sku == "SKU2" then some "duplicate key" else none

/-- The concrete failing save-invoice run: two cart items, the second
INSERT fails. -/
def saveFailRun : Except GenError (SaveResult × Conn) :=
  saveInvoice cW failW ⟨"CUS001"⟩ ⟨"2026-10-11", "2026-11-10", "cash", 100, 5, 95⟩
    [⟨"SKU1", "Widget", 2, 5, some 1⟩, ⟨"SKU2", "Gadget", 1, 7, none⟩]

/-- SalesInvoice row the failing run writes into the open transaction. -/
def invRowW : InvoiceRow :=
  ⟨"INV00003", "CUS001", "2026-10-11", "2026-11-10", "cash", 100, 5, 95⟩

/-- C6: evaluating the handler at a failing cart-item insert.  The
handler does answer 500 with the underlying error reason, but — the
rollback being commented out in the source — the transaction stays open
with the SalesInvoice row and the successful cart row still buffered on
the single shared connection: the partial invoice is visible to every
later statement on that connection, and the next BEGIN (which in MySQL
implicitly commits the open transaction) makes it durable.  The database
held no invoice at all before the call. -/
theorem saveInvoice_failure_leaves_partial_visible :
    saveFailRun.toOption.map Prod.fst =
      some (.serverError "Failed to save invoice. duplicate key")
    ∧ saveFailRun.toOption.map (fun p => p.2.inTransaction) = some true
    ∧ saveFailRun.toOption.map (fun p => p.2.pending) =
        some [.invoice invRowW, .cartItem ⟨"INV00003", "SKU1", "Widget", 2, 5, 1⟩]
    ∧ saveFailRun.toOption.map (fun p => (visibleDB p.2).sales_invoices) = some [invRowW]
    ∧ saveFailRun.toOption.map (fun p => (beginTransaction p.2).db.sales_invoices) =
        some [invRowW]
    ∧ cW.db.sales_invoices = [] := by
  decide

/-- Response of POST /api/add-product: a validation failure or the
created product (the source echoes the inserted fields; sku and the
computed dicountAllowed identify the row here). -/
inductive AddProductResult where
  | badRequest (msg : String)
  | created (sku : String) (dicountAllowed : Nat)
deriving DecidableEq, Repr

/-- Embedding of POST /api/add-product (server.cjs lines 365-428):
validate name, category, a non-negative quantity and maxDiscount within
0..100, derive dicountAllowed (1 exactly when 0 < maxDiscount < 100),
generate a sku of type 1 and insert the product row.  JS truthiness of
the required strings is modelled by comparison with "". -/
def addProduct (db : DB) (name category : String) (quantity cost price : Int)
    (image : Option String) (maxDiscount : Int) :
    Except GenError (AddProductResult × DB) :=
  if name == "" then .ok (.badRequest "Product name is required", db)
  else if category == "" then .ok (.badRequest "Category is required", db)
  else if quantity < 0 then
    .ok (.badRequest "Quantity must be a non-negative number", db)
  else if maxDiscount < 0 ∨ 100 < maxDiscount then
    .ok (.badRequest "maxDiscount must be a non-negative number and in between 0 and 100", db)
  else
    let dicountAllowed : Nat := if 0 < maxDiscount ∧ maxDiscount < 100 then 1 else 0
    match generateEntryCode db 1 with
    | .error e => .error e
    | .ok (sku, db₁) =>
      .ok (.created sku dicountAllowed,
        { db₁ with products := db₁.products ++
          [⟨sku, name, category, quantity, cost, price, image, maxDiscount,
            dicountAllowed⟩] })

/-- Response of PUT /api/update-product. -/
inductive UpdateProductResult where
  | badRequest (msg : String)
  | okMsg (msg : String)
deriving DecidableEq, Repr

/-- Embedding of PUT /api/update-product (server.cjs lines 494-554):
after checking the required fields, update every products row with the
given sku, recomputing dicountAllowed from maxDiscount (no range
validation on this path, and the affectedRows check of the source never
fires because the query result is not destructured, so the handler
answers 200 whether or not a row matched). -/
def updateProduct (db : DB) (sku name category : String) (quantity price cost : Int)
    (image : Option String) (maxDiscount : Int) : UpdateProductResult × DB :=
  let missingFields : List String :=
    (if sku == "" then ["sku"] else []) ++ (if name == "" then ["name"] else []) ++
    (if category == "" then ["category"] else [])
  if 0 < missingFields.length then
    (.badRequest ("Missing required fields: " ++ String.intercalate ", " missingFields), db)
  else
    let dicountAllowed : Nat := if 0 < maxDiscount ∧ maxDiscount < 100 then 1 else 0
    (.okMsg "Product updated successfully.",
     { db with products := db.products.map (fun p =>
        if p.sku == sku then
          { p with
              productName := name, category := category, intQty := quantity,
              price := price, cost := cost, image := image, maxDiscount := maxDiscount,
              dicountAllowed := dicountAllowed }
        else p) })

/-- C9: for products written by add-product (whose validation admits
exactly 0 ≤ maxDiscount ≤ 100) and by update-product, the stored
dicountAllowed flag is 1 exactly when 0 < maxDiscount < 100 — in
particular it is 0 at the boundary values 0 and 100. -/
theorem discountAllowed_iff :
    (∀ db : DB, ∀ name category : String, ∀ quantity cost price : Int,
      ∀ image : Option String, ∀ m : Int, ∀ row : CodeFormatRow,
      name ≠ "" → category ≠ "" → 0 ≤ quantity → 0 ≤ m → m ≤ 100 →
      findCodeFormat db.codeformats 1 = some row →
      ∃ sku : String, ∃ d : Nat, ∃ db' : DB,
        addProduct db name category quantity cost price image m =
          .ok (.created sku d, db')
        ∧ db'.products =
            db.products ++ [⟨sku, name, category, quantity, cost, price, image, m, d⟩]
        ∧ (d = 1 ↔ (0 < m ∧ m < 100))
        ∧ ((m = 0 ∨ m = 100) → d = 0))
    ∧ (∀ db : DB, ∀ sku name category : String, ∀ quantity price cost : Int,
      ∀ image : Option String, ∀ m : Int, ∀ i : Nat,
      sku ≠ "" → name ≠ "" → category ≠ "" →
      ∃ db' : DB,
        updateProduct db sku name category quantity price cost image m =
          (.okMsg "Product updated successfully.", db')
        ∧ (∀ p : ProductRow, db.products[i]? = some p → p.sku = sku →
            db'.products[i]? = some
              { p with
                  productName := name, category := category, intQty := quantity,
                  price := price, cost := cost, image := image, maxDiscount := m,
                  dicountAllowed := if 0 < m ∧ m < 100 then 1 else 0 })
        ∧ ((if 0 < m ∧ m < 100 then (1 : Nat) else 0) = 1 ↔ (0 < m ∧ m < 100))
        ∧ ((m = 0 ∨ m = 100) → (if 0 < m ∧ m < 100 then (1 : Nat) else 0) = 0)) := by
  constructor
  · intro db name category quantity cost price image m row hname hcat hq hm0 hm100 hrow
    refine ⟨row.pfx ++ padStart (jsNat (row.nextValue + 1)) row.len '0',
      if 0 < m ∧ m < 100 then 1 else 0,
      { db with
          codeformats := setNextValue db.codeformats 1 (row.nextValue + 1),
          products := db.products ++
            [⟨row.pfx ++ padStart (jsNat (row.nextValue + 1)) row.len '0', name, category,
              quantity, cost, price, image, m, if 0 < m ∧ m < 100 then 1 else 0⟩] },
      ?_, by simp, ?_, ?_⟩
    · rw [addProduct, if_neg (by simpa using hname), if_neg (by simpa using hcat),
        if_neg (by omega), if_neg (by omega), generateEntryCode_eq db 1 row hrow]
    · by_cases hc : 0 < m ∧ m < 100
      · simp [hc]
      · simp [hc]
    · intro hb
      rw [if_neg (by omega)]
  · intro db sku name category quantity price cost image m i hsku hname hcat
    have hs : (sku == "") = false := by simpa using hsku
    have hn : (name == "") = false := by simpa using hname
    have hc : (category == "") = false := by simpa using hcat
    refine ⟨{ db with products := db.products.map (fun p =>
        if p.sku == sku then
          { p with
              productName := name, category := category, intQty := quantity,
              price := price, cost := cost, image := image, maxDiscount := m,
              dicountAllowed := if 0 < m ∧ m < 100 then 1 else 0 }
        else p) }, ?_, ?_, ?_, ?_⟩
    · simp [updateProduct, hs, hn, hc]
    · intro p hp hpsku
      have hps : (p.sku == sku) = true := by simpa using hpsku
      simp [List.getElem?_map, hp, hps]
      intro hcontra
      exact absurd hpsku hcontra
    · by_cases hiff : 0 < m ∧ m < 100
      · simp [hiff]
      · simp [hiff]
    · intro hb
      rw [if_neg (by omega)]

/-- Database holding one product, for the concrete update scenario. -/
def db9 : DB := { dbW with products := [prodW 10] }

theorem discountAllowed_iff_witness :
    (∃ sku : String, ∃ d : Nat, ∃ db' : DB,
      addProduct dbW "Widget" "general" 5 3 5 none 50 = .ok (.created sku d, db')
      ∧ db'.products = dbW.products ++ [⟨sku, "Widget", "general", 5, 3, 5, none, 50, d⟩]
      ∧ (d = 1 ↔ ((0 : Int) < 50 ∧ (50 : Int) < 100))
      ∧ (((50 : Int) = 0 ∨ (50 : Int) = 100) → d = 0))
    ∧ (∃ db' : DB,
      updateProduct db9 "SKU1" "Widget" "general" 7 8 4 none 100 =
        (.okMsg "Product updated successfully.", db')
      ∧ (∀ p : ProductRow, db9.products[0]? = some p → p.sku = "SKU1" →
          db'.products[0]? = some
            { p with
                productName := "Widget", category := "general", intQty := 7,
                price := 8, cost := 4, image := none, maxDiscount := 100,
                dicountAllowed := if (0 : Int) < 100 ∧ (100 : Int) < 100 then 1 else 0 })
      ∧ ((if (0 : Int) < 100 ∧ (100 : Int) < 100 then (1 : Nat) else 0) = 1 ↔
          ((0 : Int) < 100 ∧ (100 : Int) < 100))
      ∧ (((100 : Int) = 0 ∨ (100 : Int) = 100) →
          (if (0 : Int) < 100 ∧ (100 : Int) < 100 then (1 : Nat) else 0) = 0))
    ∧ (addProduct dbW "Widget" "general" 5 3 5 none 0).toOption.map Prod.fst =
        some (.created "PRD042" 0)
    ∧ (addProduct dbW "Widget" "general" 5 3 5 none 100).toOption.map Prod.fst =
        some (.created "PRD042" 0)
    ∧ (addProduct dbW "Widget" "general" 5 3 5 none 50).toOption.map Prod.fst =
        some (.created "PRD042" 1)
    ∧ (updateProduct db9 "SKU1" "Widget" "general" 7 8 4 none 100).2.products.map
        (fun p => p.dicountAllowed) = [0] :=
  ⟨discountAllowed_iff.1 dbW "Widget" "general" 5 3 5 none 50 ⟨1, "PRD", 3, 41⟩
      (by decide) (by decide) (by decide) (by decide) (by decide) (by decide),
   discountAllowed_iff.2 db9 "SKU1" "Widget" "general" 7 8 4 none 100 0
      (by decide) (by decide) (by decide),
   by decide, by decide, by decide, by decide⟩

end RetailFlow
